import Mathlib

/-!
Verification of the two scripts in this repository.

Part 1 embeds the Output Patcher (dsheet_fix_output.py): the script reads
all lines of the file "dsheet_test.shd" (Python readlines, every line keeps
its trailing newline; a final chunk without a newline is still a line),
then rewrites the file, emitting for each line numbered from 1 either the
fixed version-tag literal (at line 8) or the original line.

A file's content is modelled as a `List Char`.  `splitLines` models
`readlines`; `writeLines 1` models the write loop; `patcher` is the whole
read-then-rewrite transformation.

Part 2 embeds the Model Builder (dsheet_test.py) as explicit state passing
over a model record that logs every registration call made to the external
geolib library as an `Event`, so claims about the call sequence become
decidable facts about a concrete trace.
-/

namespace DSheet

/-- Content written at line 8 by dsheet_fix_output.py, line 17 of the source. -/
def versionLine : List Char := "CREATED BY : D-Sheet Piling version 19.3.1.27104 \n".data

/-- Helper of `splitLines`: prepend a character to the first line of an
already-split tail, starting a fresh line when the tail is empty. -/
def consLine (c : Char) : List (List Char) → List (List Char)
  | [] => [[c]]
  | l :: ls => (c :: l) :: ls

/-- Model of Python `readlines`: split a character stream into lines, each
line keeping its trailing newline; a final chunk without a newline is a
line of its own; the empty stream has no lines. -/
def splitLines : List Char → List (List Char)
  | [] => []
  | c :: rest =>
    if c = '\n' then ['\n'] :: splitLines rest else consLine c (splitLines rest)

/-- Model of the write loop of dsheet_fix_output.py, lines 15-19: emit each
line with its 1-based number `i`, writing `versionLine` instead when `i = 8`. -/
def writeLines (i : Nat) : List (List Char) → List (List Char)
  | [] => []
  | line :: rest => (if i = 8 then versionLine else line) :: writeLines (i + 1) rest

/-- The whole Patcher: read the lines of the file content `s`, then write
them back with line 8 replaced; the new file content is the concatenation
of the emitted lines. -/
def patcher (s : List Char) : List Char := (writeLines 1 (splitLines s)).flatten

/-- A chunk produced by `readlines` is nonempty and contains a newline at
most as its final character. -/
def validLine (l : List Char) : Prop := l ≠ [] ∧ ∀ c ∈ l.dropLast, c ≠ '\n'

/-- A ten-line example file content with an arbitrary line 8. -/
def exampleTen : List Char := "L1\nL2\nL3\nL4\nL5\nL6\nL7\nOLD VERSION LINE\nL9\nL10\n".data

/-- A three-line example file content. -/
def exampleThree : List Char := "a\nb\nc\n".data

/-- An eight-line example file content whose last line has no newline. -/
def exampleEight : List Char := "1\n2\n3\n4\n5\n6\n7\nlast".data

theorem splitLines_nil : splitLines [] = [] := rfl

theorem splitLines_cons (c : Char) (rest : List Char) :
    splitLines (c :: rest) =
      if c = '\n' then ['\n'] :: splitLines rest else consLine c (splitLines rest) := rfl

theorem consLine_flatten (c : Char) (ls : List (List Char)) :
    (consLine c ls).flatten = c :: ls.flatten := by
  cases ls <;> simp [consLine]

/-- Rebuilding the split lines gives back the original stream. -/
theorem flatten_splitLines (s : List Char) : (splitLines s).flatten = s := by
  induction s with
  | nil => rfl
  | cons c rest ih =>
    by_cases hc : c = '\n'
    · simp [splitLines, hc, ih]
    · simp [splitLines, hc, consLine_flatten, ih]

theorem splitLines_eq_nil_iff (s : List Char) : splitLines s = [] ↔ s = [] := by
  cases s with
  | nil => simp [splitLines]
  | cons c rest =>
    constructor
    · intro h
      by_cases hc : c = '\n'
      · simp [splitLines, hc] at h
      · simp only [splitLines, hc, if_neg, ite_false] at h
        cases hs : splitLines rest <;> simp [hs, consLine] at h
    · intro h; cases h

/-- A single chunk with a newline at most at its end splits into itself. -/
theorem splitLines_single (l : List Char) (hne : l ≠ [])
    (hin : ∀ c ∈ l.dropLast, c ≠ '\n') : splitLines l = [l] := by
  induction l with
  | nil => cases hne rfl
  | cons c rest ih =>
    cases rest with
    | nil =>
      by_cases hc : c = '\n'
      · simp [splitLines, hc]
      · simp [splitLines, hc, consLine]
    | cons c' rest' =>
      have hc : c ≠ '\n' := hin c (by simp)
      have hin' : ∀ x ∈ (c' :: rest').dropLast, x ≠ '\n' := by
        intro x hx
        exact hin x (by simp [List.dropLast, hx])
      have hrec := ih (by simp) hin'
      rw [splitLines_cons, if_neg hc, hrec]
      simp [consLine]

/-- Splitting distributes over append when the first part is a terminated
line: a nonempty chunk ending in a newline, with no interior newline. -/
theorem splitLines_append (l t : List Char) (hlast : l.getLast? = some '\n')
    (hin : ∀ c ∈ l.dropLast, c ≠ '\n') :
    splitLines (l ++ t) = l :: splitLines t := by
  induction l with
  | nil => simp at hlast
  | cons c rest ih =>
    cases rest with
    | nil =>
      have hc : c = '\n' := by simpa using hlast
      subst hc
      simp [splitLines]
    | cons c' rest' =>
      have hc : c ≠ '\n' := hin c (by simp)
      have hlast' : (c' :: rest').getLast? = some '\n' := by
        simpa [List.getLast?_cons_cons] using hlast
      have hin' : ∀ x ∈ (c' :: rest').dropLast, x ≠ '\n' := by
        intro x hx
        exact hin x (by simp [List.dropLast, hx])
      have hrec := ih hlast' hin'
      rw [List.cons_append, splitLines_cons, if_neg hc, hrec]
      simp [consLine]

/-- Well-formedness of a line list produced by `readlines`: every line is a
valid chunk, and every line other than the last ends in a newline. -/
def linesWF (ls : List (List Char)) : Prop :=
  (∀ l ∈ ls, validLine l) ∧
  (∀ i l, i + 1 < ls.length → ls[i]? = some l → l.getLast? = some '\n')

/-- Prepending a non-newline character to the first line preserves both
well-formedness components. -/
theorem consLine_wf (c : Char) (hc : c ≠ '\n') (ls : List (List Char))
    (h : linesWF ls) : linesWF (consLine c ls) := by
  obtain ⟨hv, ht⟩ := h
  cases ls with
  | nil =>
    refine ⟨?_, ?_⟩
    · intro l hl
      simp only [consLine, List.mem_singleton] at hl
      subst hl; exact ⟨by simp, by simp⟩
    · intro i l hi _
      simp only [consLine, List.length_singleton] at hi
      omega
  | cons l0 ls0 =>
    have hv0 : validLine l0 := hv l0 (by simp)
    refine ⟨?_, ?_⟩
    · intro l hl
      simp only [consLine, List.mem_cons] at hl
      rcases hl with h | h
      · subst h
        refine ⟨by simp, ?_⟩
        intro x hx
        rcases List.eq_nil_or_concat l0 with h0 | ⟨p, a, h0⟩
        · exact absurd h0 hv0.1
        · subst h0
          rw [List.concat_eq_append, ← List.cons_append, List.dropLast_concat] at hx
          rcases List.mem_cons.mp hx with hx' | hx'
          · subst hx'; exact hc
          · refine hv0.2 x ?_
            rw [List.concat_eq_append, List.dropLast_concat]
            exact hx'
      · exact hv l (by simp [h])
    · intro i l hi hl
      simp only [consLine] at hi hl
      cases i with
      | zero =>
        simp only [List.getElem?_cons_zero, Option.some.injEq] at hl
        subst hl
        have h0 : l0.getLast? = some '\n' := by
          refine ht 0 l0 ?_ (by simp)
          simpa using hi
        rcases List.eq_nil_or_concat l0 with h' | ⟨p, a, h'⟩
        · exact absurd h' hv0.1
        · subst h'
          rw [List.concat_eq_append, ← List.cons_append, List.getLast?_concat]
          rw [List.concat_eq_append, List.getLast?_concat] at h0
          exact h0
      | succ n =>
        simp only [List.getElem?_cons_succ] at hl
        refine ht (n + 1) l ?_ ?_
        · simpa using hi
        · simp only [List.getElem?_cons_succ]
          exact hl

/-- `splitLines` only produces well-formed line lists. -/
theorem splitLines_wf (s : List Char) : linesWF (splitLines s) := by
  induction s with
  | nil => exact ⟨by simp [splitLines_nil], by simp [splitLines_nil]⟩
  | cons c rest ih =>
    obtain ⟨ihv, iht⟩ := ih
    by_cases hc : c = '\n'
    · rw [splitLines_cons, if_pos hc]
      refine ⟨?_, ?_⟩
      · intro l hl
        rcases List.mem_cons.mp hl with h | h
        · subst h; exact ⟨by simp, by simp⟩
        · exact ihv l h
      · intro i l hi hl
        cases i with
        | zero =>
          simp only [List.getElem?_cons_zero, Option.some.injEq] at hl
          subst hl; simp
        | succ n =>
          simp only [List.getElem?_cons_succ] at hl
          exact iht n l (by simpa using hi) hl
    · rw [splitLines_cons, if_neg hc]
      exact consLine_wf c hc _ ⟨ihv, iht⟩

/-- Rebuild-then-split is the identity on well-formed line lists. -/
theorem splitLines_flatten (ls : List (List Char)) (h : linesWF ls) :
    splitLines ls.flatten = ls := by
  induction ls with
  | nil => rfl
  | cons l rest ih =>
    obtain ⟨hv, ht⟩ := h
    have hvl : validLine l := hv l (by simp)
    cases rest with
    | nil =>
      simpa using splitLines_single l hvl.1 hvl.2
    | cons r rs =>
      have hlast : l.getLast? = some '\n' := ht 0 l (by simp) (by simp)
      have hrest : linesWF (r :: rs) := by
        constructor
        · intro x hx; exact hv x (by simp [hx])
        · intro i x hi hx
          refine ht (i + 1) x ?_ (by simpa using hx)
          simpa using Nat.succ_lt_succ hi
      rw [List.flatten_cons, splitLines_append l _ hlast hvl.2, ih hrest]

theorem writeLines_length (i : Nat) (ls : List (List Char)) :
    (writeLines i ls).length = ls.length := by
  induction ls generalizing i with
  | nil => rfl
  | cons l rest ih => simp [writeLines, ih]

theorem writeLines_getElem? (i : Nat) (ls : List (List Char)) (k : Nat) :
    (writeLines i ls)[k]? = (ls[k]?).map fun l => if i + k = 8 then versionLine else l := by
  induction ls generalizing i k with
  | nil => simp [writeLines]
  | cons l rest ih =>
    cases k with
    | zero => simp [writeLines]
    | succ n =>
      simp only [writeLines, List.getElem?_cons_succ, ih (i + 1) n]
      have : i + 1 + n = i + (n + 1) := by omega
      rw [this]

theorem writeLines_mem (i : Nat) (ls : List (List Char)) (l : List Char)
    (h : l ∈ writeLines i ls) : l = versionLine ∨ l ∈ ls := by
  induction ls generalizing i with
  | nil => simp [writeLines] at h
  | cons x rest ih =>
    simp only [writeLines, List.mem_cons] at h
    rcases h with h | h
    · by_cases hi : i = 8
      · simp [hi] at h; exact Or.inl h
      · simp [hi] at h; exact Or.inr (by simp [h])
    · rcases ih (i + 1) h with h' | h'
      · exact Or.inl h'
      · exact Or.inr (by simp [h'])

theorem versionLine_valid : validLine versionLine := by
  constructor
  · decide
  · decide

theorem versionLine_getLast? : versionLine.getLast? = some '\n' := by decide

/-- The output of the write loop is again a well-formed line list. -/
theorem writeLines_wf (ls : List (List Char)) (h : linesWF ls) :
    linesWF (writeLines 1 ls) := by
  obtain ⟨hv, ht⟩ := h
  constructor
  · intro l hl
    rcases writeLines_mem 1 ls l hl with h' | h'
    · subst h'; exact versionLine_valid
    · exact hv l h'
  · intro i l hi hl
    rw [writeLines_getElem? 1 ls i] at hl
    rw [writeLines_length] at hi
    cases hx : ls[i]? with
    | none => simp [hx] at hl
    | some x =>
      rw [hx] at hl
      by_cases h8 : 1 + i = 8
      · have : l = versionLine := by simp [h8] at hl; exact hl.symm
        rw [this]; exact versionLine_getLast?
      · have : l = x := by simp [h8] at hl; exact hl.symm
        rw [this]; exact ht i x hi hx

/-- Splitting the Patcher's output gives exactly the rewritten line list of
the input. -/
theorem splitLines_patcher (s : List Char) :
    splitLines (patcher s) = writeLines 1 (splitLines s) :=
  splitLines_flatten _ (writeLines_wf _ (splitLines_wf s))

/-- The write loop is the identity when no position is numbered 8. -/
theorem writeLines_eq_self (i : Nat) (ls : List (List Char))
    (h : ∀ k, k < ls.length → i + k ≠ 8) : writeLines i ls = ls := by
  induction ls generalizing i with
  | nil => rfl
  | cons l rest ih =>
    have h0 : i ≠ 8 := by have := h 0 (by simp); omega
    have h' : ∀ k, k < rest.length → i + 1 + k ≠ 8 := by
      intro k hk
      have := h (k + 1) (by simp; omega)
      omega
    simp [writeLines, h0, ih (i + 1) h']

/-- Rewriting the same position with the same constant twice is the same as
doing it once. -/
theorem writeLines_idem (i : Nat) (ls : List (List Char)) :
    writeLines i (writeLines i ls) = writeLines i ls := by
  induction ls generalizing i with
  | nil => rfl
  | cons l rest ih =>
    by_cases hi : i = 8
    · subst hi; simp [writeLines, ih 9]
    · simp [writeLines, hi, ih (i + 1)]

/-- The last character of a concatenation is the last character of the last
chunk, when that chunk is nonempty. -/
theorem flatten_getLast? (ls : List (List Char)) (l : List Char)
    (h : ls.getLast? = some l) (hne : l ≠ []) :
    ls.flatten.getLast? = l.getLast? := by
  rcases List.eq_nil_or_concat l with h4 | ⟨p, a, h4⟩
  · exact absurd h4 hne
  subst h4
  induction ls with
  | nil => simp at h
  | cons x rest ih =>
    cases rest with
    | nil =>
      simp only [List.getLast?_singleton, Option.some.injEq] at h
      subst h
      simp
    | cons y ys =>
      rw [List.getLast?_cons_cons] at h
      have h2 := ih h
      rw [List.flatten_cons, List.getLast?_append, h2, List.concat_eq_append,
        List.getLast?_concat]
      rfl

/-- Claim C1: for an input file of N lines with N at least 8, the Patcher's
output has exactly N lines, line 8 (1-indexed) is the fixed literal
version-tag line, and every other line is byte-identical to the input's. -/
theorem patcher_replaces_line8 (s : List Char) (h : 8 ≤ (splitLines s).length) :
    (splitLines (patcher s)).length = (splitLines s).length ∧
    (splitLines (patcher s))[7]? = some versionLine ∧
    ∀ i, i < (splitLines s).length → i ≠ 7 →
      (splitLines (patcher s))[i]? = (splitLines s)[i]? := by
  rw [splitLines_patcher]
  refine ⟨writeLines_length 1 _, ?_, ?_⟩
  · have h7 : 7 < (splitLines s).length := by omega
    rw [writeLines_getElem?, List.getElem?_eq_getElem h7]
    simp
  · intro i hi hne
    rw [writeLines_getElem?]
    cases hx : (splitLines s)[i]? with
    | none => simp
    | some x => simp [show ¬(1 + i = 8) by omega]

/-- Concrete instance of C1: a ten-line input has its eighth line replaced
by the version-tag line, keeps ten lines, and keeps line 3 unchanged. -/
theorem patcher_replaces_line8_witness :
    8 ≤ (splitLines exampleTen).length ∧
    (splitLines (patcher exampleTen)).length = (splitLines exampleTen).length ∧
    (splitLines (patcher exampleTen))[7]? = some versionLine ∧
    (splitLines (patcher exampleTen))[2]? = (splitLines exampleTen)[2]? :=
  ⟨by decide, (patcher_replaces_line8 exampleTen (by decide)).1,
    (patcher_replaces_line8 exampleTen (by decide)).2.1,
    (patcher_replaces_line8 exampleTen (by decide)).2.2 2 (by decide) (by decide)⟩

/-- Claim C2: on an input file of fewer than 8 lines the Patcher rewrites
the file with its content unchanged, byte for byte. -/
theorem patcher_short_noop (s : List Char) (h : (splitLines s).length < 8) :
    patcher s = s := by
  show (writeLines 1 (splitLines s)).flatten = s
  rw [writeLines_eq_self 1 _ (by intro k hk; omega), flatten_splitLines]

/-- Concrete instance of C2: a three-line file passes through unchanged. -/
theorem patcher_short_noop_witness :
    (splitLines exampleThree).length < 8 ∧ patcher exampleThree = exampleThree :=
  ⟨by decide, patcher_short_noop exampleThree (by decide)⟩

/-- Claim C3: the Patcher is idempotent; applying the read-then-rewrite
transformation twice gives the same file content as applying it once. -/
theorem patcher_idempotent (s : List Char) : patcher (patcher s) = patcher s := by
  show (writeLines 1 (splitLines (patcher s))).flatten = patcher s
  rw [splitLines_patcher, writeLines_idem]
  rfl

/-- Claim C10: for an eight-line input whose content does not end with a
newline, the Patcher's output ends with a trailing newline (the replacement
line always ends in one), lines 1..7 are byte-identical to the input, and
line 8 is the fixed version-tag line. -/
theorem patcher_adds_trailing_newline (s : List Char)
    (hlen : (splitLines s).length = 8)
    (_hnl : s.getLast? ≠ some '\n') :
    (patcher s).getLast? = some '\n' ∧
    (∀ i, i < 7 → (splitLines (patcher s))[i]? = (splitLines s)[i]?) ∧
    (splitLines (patcher s))[7]? = some versionLine := by
  have hsp := splitLines_patcher s
  have hlen' : (writeLines 1 (splitLines s)).length = 8 := by
    rw [writeLines_length]; exact hlen
  have h7 : (writeLines 1 (splitLines s))[7]? = some versionLine := by
    rw [writeLines_getElem?, List.getElem?_eq_getElem (by omega)]
    simp
  refine ⟨?_, ?_, ?_⟩
  · have hlast : (writeLines 1 (splitLines s)).getLast? = some versionLine := by
      rw [List.getLast?_eq_getElem?, hlen']
      exact h7
    show (writeLines 1 (splitLines s)).flatten.getLast? = some '\n'
    rw [flatten_getLast? _ versionLine hlast (by decide)]
    exact versionLine_getLast?
  · intro i hi
    rw [hsp, writeLines_getElem?]
    cases hx : (splitLines s)[i]? with
    | none => simp
    | some x => simp [show ¬(1 + i = 8) by omega]
  · rw [hsp]
    exact h7

/-- Concrete instance of C10: an eight-line input whose last line lacks a
newline gains one, keeps line 1, and gets the version-tag line at line 8. -/
theorem patcher_adds_trailing_newline_witness :
    (splitLines exampleEight).length = 8 ∧
    exampleEight.getLast? ≠ some '\n' ∧
    (patcher exampleEight).getLast? = some '\n' ∧
    (splitLines (patcher exampleEight))[0]? = (splitLines exampleEight)[0]? ∧
    (splitLines (patcher exampleEight))[7]? = some versionLine :=
  ⟨by decide, by decide,
    (patcher_adds_trailing_newline exampleEight (by decide) (by decide)).1,
    (patcher_adds_trailing_newline exampleEight (by decide) (by decide)).2.1 0 (by decide),
    (patcher_adds_trailing_newline exampleEight (by decide) (by decide)).2.2⟩

/-!
Part 2: the Model Builder (dsheet_test.py).

The script drives the external geolib library purely through registration
calls; no value it computes feeds back into later calls except the opaque
stage identifiers returned by `add_stage`.  The embedding mirrors the
geolib client API as explicit state passing over a `DSheetPilingModel`
record that counts stages (so `add_stage` returns sequential identifiers,
as geolib does) and logs every call as an `Event`.  Enumerations carry the
values that appear in the script; numeric fields are exact rationals,
written with `mkRat` where the source literal is not an integer.
-/

/-- Side selector of geolib, values used by dsheet_test.py. -/
inductive Side
  | LEFT
  | RIGHT
  | BOTH
deriving DecidableEq

/-- Passive-side selector; the script always lets D-Sheet Piling decide. -/
inductive PassiveSide
  | DSHEETPILING_DETERMINED
deriving DecidableEq

/-- Lateral earth pressure method; the script uses KA_KO_KP everywhere,
the library's alternative is the c, phi, delta method. -/
inductive LateralEarthPressureMethodStage
  | KA_KO_KP
  | C_PHI_DELTA
deriving DecidableEq

/-- Grain type of a soil classification, values used by the script. -/
inductive GrainType
  | FINE
  | COARSE
deriving DecidableEq

/-- Subgrade-reaction lambda type, value used by the script. -/
inductive LambdaType
  | KOTTER
deriving DecidableEq

/-- Sheet piling element material, value used by the script. -/
inductive SheetPilingElementMaterialType
  | Steel
deriving DecidableEq

/-- Load duration type of a verification load setting. -/
inductive LoadTypePermanentVariable
  | PERMANENT
  | VARIABLE
deriving DecidableEq

/-- Favourable or unfavourable load classification. -/
inductive LoadTypeFavourableUnfavourableMoment
  | FAVOURABLE
  | UNFAVOURABLE
deriving DecidableEq

/-- Calculation type, value used by the script. -/
inductive CalculationType
  | VERIFY_SHEETPILING
deriving DecidableEq

/-- Verification flavour, value used by the script. -/
inductive VerifyType
  | EC7NL
deriving DecidableEq

/-- EC7 NL partial factor calculation method, value used by the script. -/
inductive PartialFactorCalculationType
  | METHODB
deriving DecidableEq

/-- EC7 NAD NL partial factor set, value used by the script. -/
inductive PartialFactorSetEC7NADNL
  | RC2
deriving DecidableEq

/-- Global model type flags set by dsheet_test.py, lines 36-37. -/
structure SheetModelType where
  check_vertical_balance : Bool
  method : LateralEarthPressureMethodStage
  trildens_calculation : Bool
  verification : Bool
deriving DecidableEq

/-- Sheet pile section properties, dsheet_test.py lines 42-88. -/
structure SheetPileProperties where
  material_type : SheetPilingElementMaterialType
  section_bottom_level : ℚ
  elastic_stiffness_ei : ℚ
  acting_width : ℚ
  mr_char_el : ℚ
  modification_factor_k_mod : ℚ
  material_factor_gamma_m : ℚ
  reduction_factor_on_maximum_moment : ℚ
  reduction_factor_on_ei : ℚ
  section_area : ℚ
  elastic_section_modulus_w_el : ℚ
  coating_area : ℚ
  height : ℚ
deriving DecidableEq

/-- A named retaining element, dsheet_test.py line 90. -/
structure Sheet where
  name : String
  sheet_pile_properties : SheetPileProperties
deriving DecidableEq

/-- Soil unit weights, set per soil in dsheet_test.py. -/
structure SoilWeightParameters where
  unsaturated_weight : ℚ
  saturated_weight : ℚ
deriving DecidableEq

/-- Mohr-Coulomb strength parameters, set per soil in dsheet_test.py. -/
structure MohrCoulombParameters where
  cohesion : ℚ
  friction_angle : ℚ
  friction_angle_interface : ℚ
deriving DecidableEq

/-- Soil state, of which the script sets the OCR of the layer. -/
structure SoilState where
  ocr_layer : ℚ
deriving DecidableEq

/-- Soil classification, of which the script sets the grain type. -/
structure SoilClassificationParameters where
  grain_type : GrainType
deriving DecidableEq

/-- Subgrade reaction moduli, set per soil in dsheet_test.py. -/
structure SubgradeReactionParameters where
  lambda_type : LambdaType
  k_1_top_side : ℚ
  k_1_bottom_side : ℚ
  k_2_top_side : ℚ
  k_2_bottom_side : ℚ
  k_3_top_side : ℚ
  k_3_bottom_side : ℚ
deriving DecidableEq

/-- A named soil material with the parameter groups the script sets. -/
structure Soil where
  name : String
  soil_weight_parameters : SoilWeightParameters
  mohr_coulomb_parameters : MohrCoulombParameters
  shell_factor : ℚ
  soil_state : SoilState
  soil_classification_parameters : SoilClassificationParameters
  subgrade_reaction_parameters : SubgradeReactionParameters
deriving DecidableEq

/-- One layer of a soil profile: top elevation, soil reference by name,
optional pore-pressure boundary values (geolib defaults them). -/
structure SoilLayer where
  top_of_layer : ℚ
  soil : String
  water_pressure_top : Option ℚ := none
  water_pressure_bottom : Option ℚ := none
deriving DecidableEq

/-- A named ordered sequence of soil layers. -/
structure SoilProfile where
  name : String
  layers : List SoilLayer
deriving DecidableEq

/-- A geometry point, of which the script uses x and z. -/
structure Point where
  x : ℚ
  z : ℚ
deriving DecidableEq

/-- A named free-field surface given by points. -/
structure Surface where
  name : String
  points : List Point
deriving DecidableEq

/-- A named groundwater level. -/
structure WaterLevel where
  name : String
  level : ℚ
deriving DecidableEq

/-- Verification load settings attached to a uniform load. -/
structure VerificationLoadSettings where
  duration_type : LoadTypePermanentVariable
  load_type : LoadTypeFavourableUnfavourableMoment
deriving DecidableEq

/-- A uniform surface load, dsheet_test.py lines 365-377. -/
structure UniformLoad where
  name : String
  left_load : ℚ
  right_load : ℚ
  verification_load_settings : VerificationLoadSettings
deriving DecidableEq

/-- The strut support record, dsheet_test.py lines 332-342. -/
structure Strut where
  name : String
  level : ℚ
  side : Side
  e_modulus : ℚ
  cross_section : ℚ
  length : ℚ
  angle : ℚ
  buckling_force : ℚ
  pre_compression : ℚ
deriving DecidableEq

/-- Global verify calculation options, dsheet_test.py lines 284-292. -/
structure VerifyCalculationOptions where
  input_calculation_type : CalculationType
  verify_type : VerifyType
  ec7_nl_method : PartialFactorCalculationType
  calc_reduce_deltas : Bool
deriving DecidableEq

/-- Per-stage calculation option override, dsheet_test.py line 296. -/
structure CalculationOptionsPerStage where
  partial_factor_set : PartialFactorSetEC7NADNL
deriving DecidableEq

/-- One registration call made by the script into the geolib model. -/
inductive Event
  | setModel (modeltype : SheetModelType)
  | setConstruction (top_level : ℚ) (elements : List Sheet)
  | addStage (stage_id : Nat) (name : String) (passive_side : PassiveSide)
      (method_left : LateralEarthPressureMethodStage)
      (method_right : LateralEarthPressureMethodStage)
  | addSoil (soil : Soil)
  | addProfile (profile : SoilProfile) (side : Side) (stage_id : Nat)
  | addSurface (surface : Surface) (side : Side) (stage_id : Nat)
  | addHeadLine (water_level : WaterLevel) (side : Side) (stage_id : Nat)
  | setCalculationOptions (calculation_options : VerifyCalculationOptions)
  | addCalculationOptionsPerStage (calculation_options_per_stage : CalculationOptionsPerStage)
      (stage_id : Nat)
  | addAnchorOrStrut (support : Strut) (stage_id : Nat)
  | addLoad (load : UniformLoad) (stage_id : Nat)
  | serializeModel (path : String)
  | executeModel
deriving DecidableEq

/-- The geolib model as seen by this client: the count of stages (the
source of the sequential opaque identifiers `add_stage` returns) and the
log of registration calls made so far. -/
structure DSheetPilingModel where
  num_stages : Nat
  events : List Event
deriving DecidableEq

def DSheetPilingModel.init : DSheetPilingModel := ⟨0, []⟩

def set_model (m : DSheetPilingModel) (modeltype : SheetModelType) : DSheetPilingModel :=
  { m with events := m.events ++ [Event.setModel modeltype] }

def set_construction (m : DSheetPilingModel) (top_level : ℚ) (elements : List Sheet) :
    DSheetPilingModel :=
  { m with events := m.events ++ [Event.setConstruction top_level elements] }

/-- `add_stage` appends a stage and returns its opaque identifier, which
geolib assigns sequentially from zero. -/
def add_stage (m : DSheetPilingModel) (name : String) (passive_side : PassiveSide)
    (method_left method_right : LateralEarthPressureMethodStage) :
    Nat × DSheetPilingModel :=
  (m.num_stages,
    { num_stages := m.num_stages + 1,
      events := m.events ++
        [Event.addStage m.num_stages name passive_side method_left method_right] })

def add_soil (m : DSheetPilingModel) (soil : Soil) : DSheetPilingModel :=
  { m with events := m.events ++ [Event.addSoil soil] }

def add_profile (m : DSheetPilingModel) (profile : SoilProfile) (side : Side)
    (stage_id : Nat) : DSheetPilingModel :=
  { m with events := m.events ++ [Event.addProfile profile side stage_id] }

def add_surface (m : DSheetPilingModel) (surface : Surface) (side : Side)
    (stage_id : Nat) : DSheetPilingModel :=
  { m with events := m.events ++ [Event.addSurface surface side stage_id] }

def add_head_line (m : DSheetPilingModel) (water_level : WaterLevel) (side : Side)
    (stage_id : Nat) : DSheetPilingModel :=
  { m with events := m.events ++ [Event.addHeadLine water_level side stage_id] }

def set_calculation_options (m : DSheetPilingModel)
    (calculation_options : VerifyCalculationOptions) : DSheetPilingModel :=
  { m with events := m.events ++ [Event.setCalculationOptions calculation_options] }

def add_calculation_options_per_stage (m : DSheetPilingModel)
    (calculation_options_per_stage : CalculationOptionsPerStage) (stage_id : Nat) :
    DSheetPilingModel :=
  { m with events := m.events ++
      [Event.addCalculationOptionsPerStage calculation_options_per_stage stage_id] }

def add_anchor_or_strut (m : DSheetPilingModel) (support : Strut) (stage_id : Nat) :
    DSheetPilingModel :=
  { m with events := m.events ++ [Event.addAnchorOrStrut support stage_id] }

def add_load (m : DSheetPilingModel) (load : UniformLoad) (stage_id : Nat) :
    DSheetPilingModel :=
  { m with events := m.events ++ [Event.addLoad load stage_id] }

def serialize (m : DSheetPilingModel) (path : String) : DSheetPilingModel :=
  { m with events := m.events ++ [Event.serializeModel path] }

def execute (m : DSheetPilingModel) : DSheetPilingModel :=
  { m with events := m.events ++ [Event.executeModel] }

/-- AZ 18-700 S355 section, dsheet_test.py lines 42-56 (7.938E+04 = 79380). -/
def sheet_pile_properties_AZ18_700_S355 : SheetPileProperties :=
  { material_type := SheetPilingElementMaterialType.Steel
    section_bottom_level := -20
    elastic_stiffness_ei := 79380
    acting_width := 1
    mr_char_el := 639
    modification_factor_k_mod := 1
    material_factor_gamma_m := 1
    reduction_factor_on_maximum_moment := 1
    reduction_factor_on_ei := 1
    section_area := 139
    elastic_section_modulus_w_el := 1800
    coating_area := mkRat 133 100
    height := 420 }

/-- AZ 20-700 S355 section, dsheet_test.py lines 58-72 (8.6016E+04 = 86016). -/
def sheet_pile_properties_AZ20_700_S355 : SheetPileProperties :=
  { material_type := SheetPilingElementMaterialType.Steel
    section_bottom_level := -20
    elastic_stiffness_ei := 86016
    acting_width := 1
    mr_char_el := 690
    modification_factor_k_mod := 1
    material_factor_gamma_m := 1
    reduction_factor_on_maximum_moment := 1
    reduction_factor_on_ei := 1
    section_area := 152
    elastic_section_modulus_w_el := 1945
    coating_area := mkRat 133 100
    height := 421 }

/-- AZ 26-700 S355 section, dsheet_test.py lines 74-88 (1.254120E+05 = 125412). -/
def sheet_pile_properties_AZ26_700_S355 : SheetPileProperties :=
  { material_type := SheetPilingElementMaterialType.Steel
    section_bottom_level := -20
    elastic_stiffness_ei := 125412
    acting_width := 1
    mr_char_el := 923
    modification_factor_k_mod := 1
    material_factor_gamma_m := 1
    reduction_factor_on_maximum_moment := 1
    reduction_factor_on_ei := 1
    section_area := 187
    elastic_section_modulus_w_el := 2600
    coating_area := mkRat 138 100
    height := 460 }

/-- The retaining element actually installed, dsheet_test.py line 90. -/
def sheet_element : Sheet :=
  { name := "AZ 20-700 S355",
    sheet_pile_properties := sheet_pile_properties_AZ20_700_S355 }

/-- Clay material, dsheet_test.py lines 133-148. -/
def soil_clay : Soil :=
  { name := "Clay"
    soil_weight_parameters := { unsaturated_weight := 10, saturated_weight := 11 }
    mohr_coulomb_parameters :=
      { cohesion := 10, friction_angle := 17, friction_angle_interface := 11 }
    shell_factor := 1
    soil_state := { ocr_layer := 1 }
    soil_classification_parameters := { grain_type := GrainType.FINE }
    subgrade_reaction_parameters :=
      { lambda_type := LambdaType.KOTTER
        k_1_top_side := 4000, k_1_bottom_side := 4000
        k_2_top_side := 2000, k_2_bottom_side := 2000
        k_3_top_side := 800, k_3_bottom_side := 800 } }

/-- Peat material, dsheet_test.py lines 151-166. -/
def soil_peat : Soil :=
  { name := "Peat"
    soil_weight_parameters := { unsaturated_weight := 10, saturated_weight := 11 }
    mohr_coulomb_parameters :=
      { cohesion := 2, friction_angle := 20, friction_angle_interface := 0 }
    shell_factor := 1
    soil_state := { ocr_layer := 1 }
    soil_classification_parameters := { grain_type := GrainType.FINE }
    subgrade_reaction_parameters :=
      { lambda_type := LambdaType.KOTTER
        k_1_top_side := 2000, k_1_bottom_side := 2000
        k_2_top_side := 800, k_2_bottom_side := 800
        k_3_top_side := 500, k_3_bottom_side := 500 } }

/-- Sand moderate material, dsheet_test.py lines 169-184 (32.5 and 21.7
degrees as exact rationals). -/
def soil_sand_moderate : Soil :=
  { name := "Sand moderate"
    soil_weight_parameters := { unsaturated_weight := 17, saturated_weight := 19 }
    mohr_coulomb_parameters :=
      { cohesion := 0, friction_angle := mkRat 65 2,
        friction_angle_interface := mkRat 217 10 }
    shell_factor := 1
    soil_state := { ocr_layer := 1 }
    soil_classification_parameters := { grain_type := GrainType.COARSE }
    subgrade_reaction_parameters :=
      { lambda_type := LambdaType.KOTTER
        k_1_top_side := 20000, k_1_bottom_side := 20000
        k_2_top_side := 10000, k_2_bottom_side := 10000
        k_3_top_side := 5000, k_3_bottom_side := 5000 } }

/-- Sand dense material, dsheet_test.py lines 187-202 (23.3 degrees as an
exact rational). -/
def soil_sand_dense : Soil :=
  { name := "Sand dense"
    soil_weight_parameters := { unsaturated_weight := 19, saturated_weight := 21 }
    mohr_coulomb_parameters :=
      { cohesion := 0, friction_angle := 35,
        friction_angle_interface := mkRat 233 10 }
    shell_factor := 1
    soil_state := { ocr_layer := 1 }
    soil_classification_parameters := { grain_type := GrainType.COARSE }
    subgrade_reaction_parameters :=
      { lambda_type := LambdaType.KOTTER
        k_1_top_side := 40000, k_1_bottom_side := 40000
        k_2_top_side := 20000, k_2_bottom_side := 20000
        k_3_top_side := 10000, k_3_bottom_side := 10000 } }

/-- Soil profile for the initial situation, dsheet_test.py lines 209-219. -/
def profile_initial : SoilProfile :=
  { name := "Profile initial"
    layers :=
      [{ top_of_layer := 0, soil := soil_clay.name },
       { top_of_layer := -3, soil := soil_peat.name },
       { top_of_layer := -4, soil := soil_sand_moderate.name },
       { top_of_layer := -8, soil := soil_clay.name },
       { top_of_layer := -13, soil := soil_sand_moderate.name },
       { top_of_layer := -18, soil := soil_sand_dense.name }] }

/-- Soil profile after the first excavation, dsheet_test.py lines 221-231. -/
def profile_first_excavation : SoilProfile :=
  { name := "Profile first excavation"
    layers :=
      [{ top_of_layer := 0, soil := soil_clay.name },
       { top_of_layer := -3, soil := soil_peat.name },
       { top_of_layer := -4, soil := soil_sand_moderate.name },
       { top_of_layer := -8, soil := soil_clay.name, water_pressure_bottom := some 15 },
       { top_of_layer := -13, soil := soil_sand_moderate.name,
         water_pressure_top := some 15, water_pressure_bottom := some 15 },
       { top_of_layer := -18, soil := soil_sand_dense.name,
         water_pressure_top := some 15, water_pressure_bottom := some 15 }] }

/-- Soil profile for the dry pit, dsheet_test.py lines 233-243. -/
def profile_pit_dry : SoilProfile :=
  { name := "Profile pit dry"
    layers :=
      [{ top_of_layer := 0, soil := soil_clay.name },
       { top_of_layer := -3, soil := soil_peat.name },
       { top_of_layer := -4, soil := soil_sand_moderate.name },
       { top_of_layer := -8, soil := soil_clay.name, water_pressure_bottom := some 70 },
       { top_of_layer := -13, soil := soil_sand_moderate.name,
         water_pressure_top := some 70, water_pressure_bottom := some 70 },
       { top_of_layer := -18, soil := soil_sand_dense.name,
         water_pressure_top := some 70, water_pressure_bottom := some 70 }] }

/-- Surfaces, dsheet_test.py lines 255-257. -/
def surface_ground_level : Surface :=
  { name := "Initial surface level", points := [{ x := 0, z := 0 }] }

def surface_first_excavation : Surface :=
  { name := "Excavated NAP-2 m", points := [{ x := 0, z := -2 }] }

def surface_full_excavation : Surface :=
  { name := "Excavated NAP-8 m", points := [{ x := 0, z := -8 }] }

/-- Water levels, dsheet_test.py lines 269-271 (-2.5 as an exact rational). -/
def water_level_initial : WaterLevel := { name := "Water level NAP-1.0 m", level := -1 }

def water_level_min2_5 : WaterLevel := { name := "Water level NAP-2.5 m", level := mkRat (-5) 2 }

def water_level_min_8 : WaterLevel := { name := "Water level NAP-8.0 m", level := -8 }

/-- Global verify calculation options, dsheet_test.py lines 284-292. -/
def calc_options : VerifyCalculationOptions :=
  { input_calculation_type := CalculationType.VERIFY_SHEETPILING
    verify_type := VerifyType.EC7NL
    ec7_nl_method := PartialFactorCalculationType.METHODB
    calc_reduce_deltas := true }

/-- Per-stage option override, dsheet_test.py line 296. -/
def calc_options_per_stage : CalculationOptionsPerStage :=
  { partial_factor_set := PartialFactorSetEC7NADNL.RC2 }

/-- The single strut, dsheet_test.py lines 332-342: level -1.5,
e-modulus 2.1e8 = 210000000, cross section 4.0e-3, angle 0.001. -/
def strut1 : Strut :=
  { name := "Strut"
    level := mkRat (-3) 2
    side := Side.LEFT
    e_modulus := 210000000
    cross_section := mkRat 4 1000
    length := 10
    angle := mkRat 1 1000
    buckling_force := 10000
    pre_compression := 10 }

/-- The 20 kPa variable unfavourable surface load, dsheet_test.py lines 365-368. -/
def uniform_load_20kPa : UniformLoad :=
  { name := "Surface load 20 kPa"
    left_load := 0
    right_load := 20
    verification_load_settings :=
      { duration_type := LoadTypePermanentVariable.VARIABLE
        load_type := LoadTypeFavourableUnfavourableMoment.UNFAVOURABLE } }

/-- The 70 kPa permanent favourable surface load, dsheet_test.py lines 374-377. -/
def uniform_load_pit_dry : UniformLoad :=
  { name := "Surface load 70 kPa"
    left_load := 70
    right_load := 0
    verification_load_settings :=
      { duration_type := LoadTypePermanentVariable.PERMANENT
        load_type := LoadTypeFavourableUnfavourableMoment.FAVOURABLE } }

/-- Ambient inputs a run could in principle observe (wall-clock time and a
random seed); dsheet_test.py reads neither, which the embedding makes
explicit by never inspecting this record. -/
structure Env where
  clock_now : Nat
  random_seed : Nat

/-- The whole Builder, dsheet_test.py lines 33-431, as explicit state
passing in source order.  Each Python `for stage in [...]` loop is a fold
over the same stage list.  The commented-out blocks of the source (anchor,
alternative calculation options, extra load kinds) make no calls and are
omitted; the final result fetch and print makes no registration either. -/
def calculate_sheet_pile (_env : Env) : DSheetPilingModel :=
  let model := DSheetPilingModel.init
  let modeltype : SheetModelType :=
    { check_vertical_balance := false
      method := LateralEarthPressureMethodStage.KA_KO_KP
      trildens_calculation := false
      verification := true }
  let model := set_model model modeltype
  let level_top : ℚ := 0
  let model := set_construction model level_top [sheet_element]
  let (stage_initial, model) := add_stage model "Initial stage"
    PassiveSide.DSHEETPILING_DETERMINED
    LateralEarthPressureMethodStage.KA_KO_KP LateralEarthPressureMethodStage.KA_KO_KP
  let (stage_first_excavation, model) := add_stage model "First excavation"
    PassiveSide.DSHEETPILING_DETERMINED
    LateralEarthPressureMethodStage.KA_KO_KP LateralEarthPressureMethodStage.KA_KO_KP
  let (stage_strut, model) := add_stage model "Place struts"
    PassiveSide.DSHEETPILING_DETERMINED
    LateralEarthPressureMethodStage.KA_KO_KP LateralEarthPressureMethodStage.KA_KO_KP
  let (stage_wet_excavation, model) := add_stage model "Wet excavation"
    PassiveSide.DSHEETPILING_DETERMINED
    LateralEarthPressureMethodStage.KA_KO_KP LateralEarthPressureMethodStage.KA_KO_KP
  let (stage_pit_dry, model) := add_stage model "Pit dry"
    PassiveSide.DSHEETPILING_DETERMINED
    LateralEarthPressureMethodStage.KA_KO_KP LateralEarthPressureMethodStage.KA_KO_KP
  let model := List.foldl (fun m soil => add_soil m soil) model
    [soil_clay, soil_peat, soil_sand_moderate, soil_sand_dense]
  let model := List.foldl (fun m stage => add_profile m profile_initial Side.BOTH stage) model
    [stage_initial, stage_first_excavation, stage_strut, stage_wet_excavation, stage_pit_dry]
  let model := List.foldl
    (fun m stage => add_profile m profile_first_excavation Side.LEFT stage) model
    [stage_first_excavation, stage_strut]
  let model := List.foldl (fun m stage => add_profile m profile_pit_dry Side.LEFT stage) model
    [stage_pit_dry]
  let model := List.foldl
    (fun m stage => add_surface m surface_ground_level Side.RIGHT stage) model
    [stage_initial, stage_first_excavation, stage_strut, stage_wet_excavation, stage_pit_dry]
  let model := List.foldl
    (fun m stage => add_surface m surface_first_excavation Side.LEFT stage) model
    [stage_first_excavation, stage_strut]
  let model := List.foldl
    (fun m stage => add_surface m surface_full_excavation Side.LEFT stage) model
    [stage_wet_excavation, stage_pit_dry]
  let model := List.foldl
    (fun m stage => add_head_line m water_level_initial Side.BOTH stage) model
    [stage_initial, stage_first_excavation, stage_strut, stage_wet_excavation, stage_pit_dry]
  let model := List.foldl
    (fun m stage => add_head_line m water_level_min2_5 Side.LEFT stage) model
    [stage_first_excavation, stage_strut]
  let model := List.foldl
    (fun m stage => add_head_line m water_level_min_8 Side.LEFT stage) model
    [stage_pit_dry]
  let model := set_calculation_options model calc_options
  let model := List.foldl
    (fun m stage => add_calculation_options_per_stage m calc_options_per_stage stage) model
    [stage_first_excavation, stage_strut, stage_wet_excavation, stage_pit_dry]
  let model := List.foldl (fun m stage => add_anchor_or_strut m strut1 stage) model
    [stage_strut, stage_wet_excavation, stage_pit_dry]
  let model := List.foldl (fun m stage => add_load m uniform_load_20kPa stage) model
    [stage_first_excavation, stage_strut, stage_wet_excavation, stage_pit_dry]
  let model := List.foldl (fun m stage => add_load m uniform_load_pit_dry stage) model
    [stage_pit_dry]
  let model := serialize model "dsheet_test.shi"
  let model := execute model
  model

/-- The registration trace of one (any) run of the Builder. -/
def builderEvents : List Event := (calculate_sheet_pile ⟨0, 0⟩).events

/-- The stages registered, in trace order, with identifier, name and the
lateral earth pressure methods of the left and right side. -/
def stageRegistrations :
    List (Nat × String × LateralEarthPressureMethodStage × LateralEarthPressureMethodStage) :=
  builderEvents.filterMap fun e =>
    match e with
    | Event.addStage id name _ ml mr => some (id, name, ml, mr)
    | _ => none

/-- The soils registered with the model, in trace order, by name. -/
def soilNames : List String :=
  builderEvents.filterMap fun e =>
    match e with
    | Event.addSoil s => some s.name
    | _ => none

/-- The profile attachments, in trace order. -/
def profileRegistrations : List (SoilProfile × Side × Nat) :=
  builderEvents.filterMap fun e =>
    match e with
    | Event.addProfile p sd sid => some (p, sd, sid)
    | _ => none

/-- The load registrations, in trace order. -/
def loadRegistrations : List (UniformLoad × Nat) :=
  builderEvents.filterMap fun e =>
    match e with
    | Event.addLoad ld sid => some (ld, sid)
    | _ => none

/-- The strut and anchor registrations, in trace order. -/
def strutRegistrations : List (Strut × Nat) :=
  builderEvents.filterMap fun e =>
    match e with
    | Event.addAnchorOrStrut s sid => some (s, sid)
    | _ => none

def isAddSoil : Event → Bool := fun e =>
  match e with
  | Event.addSoil _ => true
  | _ => false

def isAddProfile : Event → Bool := fun e =>
  match e with
  | Event.addProfile _ _ _ => true
  | _ => false

/-- Strict descent of a list of elevations: each entry is strictly below
the one before it. -/
def strictlyDescending : List ℚ → Bool
  | [] => true
  | [_] => true
  | a :: b :: rest => decide (b < a) && strictlyDescending (b :: rest)

/-- Claim C5: the Builder is deterministic; the registration trace (and so
the serialized-input and solver-invocation calls it contains) is identical
for any two runs, whatever ambient time or randomness they observe. -/
theorem builder_deterministic (e₁ e₂ : Env) :
    (calculate_sheet_pile e₁).events = (calculate_sheet_pile e₂).events := rfl

/-- Concrete instance of C5: two runs under different ambient times and
seeds issue the same registration trace. -/
theorem builder_deterministic_witness :
    (calculate_sheet_pile ⟨1, 2⟩).events = (calculate_sheet_pile ⟨3, 4⟩).events :=
  builder_deterministic ⟨1, 2⟩ ⟨3, 4⟩

/-- Claim C6: exactly five stages are created, in the fixed order with
sequential identifiers, each with the KA_KO_KP method on both sides. -/
theorem builder_five_stages :
    stageRegistrations =
      [(0, "Initial stage", LateralEarthPressureMethodStage.KA_KO_KP,
        LateralEarthPressureMethodStage.KA_KO_KP),
       (1, "First excavation", LateralEarthPressureMethodStage.KA_KO_KP,
        LateralEarthPressureMethodStage.KA_KO_KP),
       (2, "Place struts", LateralEarthPressureMethodStage.KA_KO_KP,
        LateralEarthPressureMethodStage.KA_KO_KP),
       (3, "Wet excavation", LateralEarthPressureMethodStage.KA_KO_KP,
        LateralEarthPressureMethodStage.KA_KO_KP),
       (4, "Pit dry", LateralEarthPressureMethodStage.KA_KO_KP,
        LateralEarthPressureMethodStage.KA_KO_KP)] := by
  decide

/-- Claim C4: the 20 kPa variable unfavourable load is registered once per
call for exactly stages 1-4 (First excavation, Place struts, Wet
excavation, Pit dry), the 70 kPa permanent favourable load once for stage
4 (Pit dry), and no load is registered for stage 0 (Initial stage); at the
call level no load is registered twice for a stage. -/
theorem builder_load_registrations :
    loadRegistrations =
      [(uniform_load_20kPa, 1), (uniform_load_20kPa, 2),
       (uniform_load_20kPa, 3), (uniform_load_20kPa, 4),
       (uniform_load_pit_dry, 4)] ∧
    (stageRegistrations.map fun p => (p.1, p.2.1)) =
      [(0, "Initial stage"), (1, "First excavation"), (2, "Place struts"),
       (3, "Wet excavation"), (4, "Pit dry")] ∧
    (loadRegistrations.map Prod.snd).contains 0 = false ∧
    uniform_load_20kPa.right_load = 20 ∧
    uniform_load_20kPa.verification_load_settings.duration_type =
      LoadTypePermanentVariable.VARIABLE ∧
    uniform_load_20kPa.verification_load_settings.load_type =
      LoadTypeFavourableUnfavourableMoment.UNFAVOURABLE ∧
    uniform_load_pit_dry.left_load = 70 ∧
    uniform_load_pit_dry.verification_load_settings.duration_type =
      LoadTypePermanentVariable.PERMANENT ∧
    uniform_load_pit_dry.verification_load_settings.load_type =
      LoadTypeFavourableUnfavourableMoment.FAVOURABLE := by
  decide

/-- Claim C7: all four soils are registered, in order, before any profile
is attached (in the subsequence of soil and profile events, every soil
event precedes every profile event), and every layer of every attached
profile references a registered soil name. -/
theorem builder_soils_before_profiles :
    soilNames = ["Clay", "Peat", "Sand moderate", "Sand dense"] ∧
    builderEvents.filter (fun e => isAddSoil e || isAddProfile e) =
      builderEvents.filter isAddSoil ++ builderEvents.filter isAddProfile ∧
    (profileRegistrations.all fun p =>
      (p.1).layers.all fun layer => soilNames.contains layer.soil) = true := by
  decide

/-- Claim C8: each of the three profiles the Builder constructs has its
layers in strictly decreasing top-elevation order, these three are exactly
the profiles attached to stages, and every attached profile satisfies the
descent invariant. -/
theorem builder_profiles_descending :
    strictlyDescending (profile_initial.layers.map SoilLayer.top_of_layer) = true ∧
    strictlyDescending (profile_first_excavation.layers.map SoilLayer.top_of_layer) = true ∧
    strictlyDescending (profile_pit_dry.layers.map SoilLayer.top_of_layer) = true ∧
    (profileRegistrations.map fun p => (p.1).name) =
      ["Profile initial", "Profile initial", "Profile initial", "Profile initial",
       "Profile initial", "Profile first excavation", "Profile first excavation",
       "Profile pit dry"] ∧
    (profileRegistrations.all fun p =>
      strictlyDescending ((p.1).layers.map SoilLayer.top_of_layer)) = true := by
  decide

/-- Claim C9: the single strut record is registered for exactly the three
stages 2, 3 and 4 (Place struts, Wet excavation, Pit dry), once each, and
no strut or anchor is registered for stage 0 (Initial stage) or stage 1
(First excavation). -/
theorem builder_strut_registrations :
    strutRegistrations = [(strut1, 2), (strut1, 3), (strut1, 4)] ∧
    (stageRegistrations.map fun p => (p.1, p.2.1)) =
      [(0, "Initial stage"), (1, "First excavation"), (2, "Place struts"),
       (3, "Wet excavation"), (4, "Pit dry")] ∧
    (strutRegistrations.map Prod.snd).contains 0 = false ∧
    (strutRegistrations.map Prod.snd).contains 1 = false := by
  decide

end DSheet
